import Mathlib

/-
Formal model of `src/session_log.py` (climbing training-session journal).

Modelling conventions (shallow embedding):
- `datetime.datetime` values are modelled at calendar-day granularity
  (`PyDate`): every construction path in the repository produces
  midnight datetimes (`curr_date_as_datetime`, the `_DATE` constant, and
  the bson date round-trip of such values), and the only consumers are
  lexicographic comparison and `strftime('%Y-%m-%d')`, both of which are
  determined by the (year, month, day) triple for midnight datetimes.
- The impure call `curr_date_as_datetime()` is threaded as an explicit
  `today` parameter.
- JSON is modelled structurally: `Session.to_json` produces a
  `SessionJson` record instead of its string rendering, and the
  newline-delimited journal file is a `List SessionJson`, one entry per
  line in file order.  `json.dumps` output contains no newline, so the
  line structure of the file is exactly this list.
- The filesystem is a map from path to optional file content (`FS`).
  `os.path.exists`/`os.remove`/`open(...,'w')` become lookups and updates
  of this map; `update_file`'s remove-then-write collapses to a single
  replacement of the stored content.
- Python exceptions (`IndexError` from out-of-range indexing,
  `ValueError` from `int()`) are modelled with `Except PyErr`.
- Python string helpers (`str.split(',')`, `str.splitlines()`,
  `str.strip()`, `int()`) are defined below on `List Char`, following
  their documented semantics (split on a single separator keeping empty
  segments; splitlines dropping a trailing terminator; strip removing
  whitespace at both ends; int accepting an optional sign followed by
  digits; underscore digit separators and non-ASCII digits are not
  modelled, and no claim depends on them).
-/

deriving instance DecidableEq for Except

namespace SessionLog

/-- A `datetime.datetime` at calendar-day granularity (see header note). -/
structure PyDate where
  year : Nat
  month : Nat
  day : Nat
deriving DecidableEq

/-- Python `datetime` comparison, restricted to day granularity:
lexicographic on (year, month, day). -/
def PyDate.ble (a b : PyDate) : Bool :=
  decide (a.year < b.year ∨ (a.year = b.year ∧
    (a.month < b.month ∨ (a.month = b.month ∧ a.day ≤ b.day))))

/-- `Route = namedtuple('Route', ['index', 'grade', 'type', 'perf'])`
(line 22 of `session_log.py`). -/
structure Route where
  index : Nat
  grade : String
  type : String
  perf : Int
deriving DecidableEq

/-- A mapping-shaped route record, as accepted by `create_route`'s dict
branch: its `grade`/`type`/`perf` keys are read; an `idx` key may be
present (as in `to_json` output) and is never read. -/
structure RouteDict where
  idx : Option Nat
  grade : String
  type : String
  perf : Int
deriving DecidableEq

/-- The two supported route-record shapes of `create_route` (lines 29-37):
a `(grade, type, perf)` tuple or a mapping.  The `NotImplementedError`
branch for any other runtime type has no counterpart in the typed model. -/
inductive RouteRec where
  | tup (grade : String) (ty : String) (perf : Int)
  | dict (d : RouteDict)
deriving DecidableEq

/-- `create_route(idx, rec)` (lines 29-37): the dict branch reads only
`rec['grade']`, `rec['type']`, `rec['perf']`; the tuple branch reads
`rec[0]`, `rec[1]`, `rec[2]`.  The positional `idx` argument becomes the
route's `index` field in both branches. -/
def create_route (idx : Nat) (rec : RouteRec) : Route :=
  match rec with
  | .dict d => ⟨idx, d.grade, d.type, d.perf⟩
  | .tup g t p => ⟨idx, g, t, p⟩

/-- A constructed `Session` object: a date plus the ordered `Route` list
built by `__init__`. -/
structure Session where
  date : PyDate
  routes : List Route
deriving DecidableEq

/-- `Session.__init__(routes, date)` (lines 42-44):
`self.date = date or curr_date_as_datetime()` (a datetime is always
truthy, so `None` falls back to today) and
`self.routes = [create_route(idx, route) for idx, route in enumerate(routes)]`. -/
def sessionInit (routes : List RouteRec) (date : Option PyDate) (today : PyDate) : Session :=
  ⟨date.getD today, (routes.enum).map (fun p => create_route p.1 p.2)⟩

/-- The JSON object produced by `Session.to_json` (lines 46-56), modelled
structurally: a `date` field and a `routes` array of objects with keys
`idx`, `grade`, `type`, `perf`. -/
structure SessionJson where
  date : PyDate
  routes : List RouteDict
deriving DecidableEq

/-- `Session.to_json` (lines 46-56). -/
def Session.to_json (s : Session) : SessionJson :=
  ⟨s.date, s.routes.map (fun r => ⟨some r.index, r.grade, r.type, r.perf⟩)⟩

/-- `Session.from_json` (lines 58-60): `cls(**json_util.loads(json_str))`,
i.e. the constructor applied to the decoded `date` and the decoded route
mappings.  The `today` parameter threads `curr_date_as_datetime`; it is
unused because the decoded date is always truthy. -/
def Session.from_json (today : PyDate) (j : SessionJson) : Session :=
  sessionInit (j.routes.map RouteRec.dict) (some j.date) today

/-- Split a character list at every occurrence of `c`, keeping empty
segments: the semantics of Python `str.split(c)` for a one-character
separator (`''.split(c) == ['']`). -/
def splitOnChar (c : Char) : List Char → List (List Char)
  | [] => [[]]
  | x :: xs =>
    match splitOnChar c xs with
    | [] => [[]]
    | y :: ys => if x = c then [] :: y :: ys else (x :: y) :: ys

/-- Python `str.split(',')` on a `String`. -/
def pySplit (c : Char) (s : String) : List String :=
  (splitOnChar c s.data).map String.mk

/-- Python `str.splitlines()` on a character list, for `'\n'`-separated
text: empty input gives no lines, and a trailing terminator does not
produce a trailing empty line. -/
def pySplitlinesChars (l : List Char) : List (List Char) :=
  if l = [] then []
  else if l.getLast? = some '\n' then (splitOnChar '\n' l).dropLast
  else splitOnChar '\n' l

/-- Python `str.splitlines()` on a `String`. -/
def pySplitlines (s : String) : List String :=
  (pySplitlinesChars s.data).map String.mk

/-- Python `str.strip()` on a character list: drop whitespace from both
ends. -/
def pyStripChars (l : List Char) : List Char :=
  ((l.dropWhile Char.isWhitespace).reverse.dropWhile Char.isWhitespace).reverse

/-- Python `str.strip()` on a `String`. -/
def pyStrip (s : String) : String :=
  String.mk (pyStripChars s.data)

/-- The value of a nonempty all-digit character list, else `none`. -/
def digitsVal (l : List Char) : Option Nat :=
  if l = [] then none
  else
    l.foldl
      (fun acc c =>
        match acc with
        | none => none
        | some n => if c.isDigit then some (10 * n + (c.toNat - 48)) else none)
      (some 0)

/-- Python `int(str)` on an already-whitespace-stripped character list:
an optional sign followed by at least one digit. -/
def pyIntChars : List Char → Option Int
  | '-' :: ds => (digitsVal ds).map (fun n => -(n : Int))
  | '+' :: ds => (digitsVal ds).map (fun n => (n : Int))
  | ds => (digitsVal ds).map (fun n => (n : Int))

/-- The Python exceptions reachable in the modelled code: `IndexError`
from out-of-range list indexing, `ValueError` from `int()` on a
non-integer literal. -/
inductive PyErr where
  | indexError
  | valueError (lit : String)
deriving DecidableEq

/-- Python `int(s)`: strips whitespace, then parses an optional sign and
digits; raises `ValueError` naming the literal otherwise. -/
def pyInt (s : String) : Except PyErr Int :=
  match pyIntChars (pyStripChars s.data) with
  | some n => .ok n
  | none => .error (.valueError s)

/-- One iteration of the `from_csv_str` loop body (lines 66-67):
`parts = route_line.split(',')` and the tuple
`(parts[0].strip(), parts[1].strip(), int(parts[2].strip()))`.
Fewer than three parts raises `IndexError`; parts beyond the third are
never read. -/
def parseCsvLine (line : String) : Except PyErr (String × String × Int) :=
  match pySplit ',' line with
  | g :: t :: p :: _ => (pyInt (pyStrip p)).map (fun n => (pyStrip g, pyStrip t, n))
  | _ => .error .indexError

/-- The `from_csv_str` loop over `csv_str.splitlines()` (lines 64-67):
route tuples are accumulated in line order and the first raising line
aborts the call. -/
def parseLines : List String → Except PyErr (List (String × String × Int))
  | [] => .ok []
  | l :: rest => do
    let r ← parseCsvLine l
    let rs ← parseLines rest
    return r :: rs

/-- `Session.from_csv_str(csv_str, date)` (lines 62-69). -/
def Session.from_csv_str (csv : String) (date : Option PyDate) (today : PyDate) :
    Except PyErr Session := do
  let recs ← parseLines (pySplitlines csv)
  return sessionInit (recs.map (fun r => RouteRec.tup r.1 r.2.1 r.2.2)) date today

/-- `TrainingLog` (lines 78-81): an ordered list of sessions. -/
structure TrainingLog where
  sessions : List Session
deriving DecidableEq

/-- `_STORAGE_FILE_LOC` (line 15). -/
def STORAGE_FILE_LOC : String := "sessions/current.json"

/-- Zero-pad to two digits (`strftime` `%m`, `%d`). -/
def pad2 (n : Nat) : String :=
  if n < 10 then "0" ++ toString n else toString n

/-- Zero-pad to four digits (`strftime` `%Y`). -/
def pad4 (n : Nat) : String :=
  if n < 10 then "000" ++ toString n
  else if n < 100 then "00" ++ toString n
  else if n < 1000 then "0" ++ toString n
  else toString n

/-- `latest_date.strftime(_DATE_FORMAT)` with `_DATE_FORMAT = '%Y-%m-%d'`
(lines 17, 102). -/
def strftimeYmd (d : PyDate) : String :=
  pad4 d.year ++ "-" ++ pad2 d.month ++ "-" ++ pad2 d.day

/-- `_OLD_FILE_FORMAT.format(date=...)` (lines 16, 102): the dated
archive path `sessions/old/result_` ++ date ++ `.json`. -/
def oldFileLoc (d : PyDate) : String :=
  "sessions/old/result_" ++ strftimeYmd d ++ ".json"

/-- The filesystem: a map from path to the content stored there.  File
content is the parsed journal, one `SessionJson` per line. -/
abbrev FS := String → Option (List SessionJson)

/-- Replace the content at `path`. -/
def FS.set (fs : FS) (path : String) (content : List SessionJson) : FS :=
  fun p => if p = path then some content else fs p

/-- The empty filesystem (first-run state). -/
def fsEmpty : FS := fun _ => none

/-- `TrainingLog.dump_jsons` (lines 117-118): every session serialized,
one JSON object per line, in in-memory order. -/
def TrainingLog.dump_jsons (log : TrainingLog) : List SessionJson :=
  log.sessions.map Session.to_json

/-- `TrainingLog.load` (lines 83-90): empty log when the storage file
does not exist, otherwise one session parsed per line in file order. -/
def TrainingLog.load (today : PyDate) (fs : FS) : TrainingLog :=
  match fs STORAGE_FILE_LOC with
  | none => ⟨[]⟩
  | some ls => ⟨ls.map (Session.from_json today)⟩

/-- `TrainingLog.update_file` (lines 92-96): remove any existing file at
`file`, then write `dump_jsons()`; net effect is replacement of the
stored content. -/
def TrainingLog.update_file (log : TrainingLog) (fs : FS) (file : String) : FS :=
  FS.set fs file log.dump_jsons

/-- `sorted`'s key comparison in `write` (line 99): sessions compared by
date. -/
def sessionLE (a b : Session) : Bool :=
  a.date.ble b.date

/-- `TrainingLog.write` (lines 98-103):
`sorted(self.sessions, key=...)[-1]` raises `IndexError` on an empty
log (modelled as `none`); otherwise the dated archive path is formatted
from the latest session's date and `update_file` runs twice, first on
the archive path, then on the canonical path. -/
def TrainingLog.write (log : TrainingLog) (fs : FS) : Option FS :=
  match (log.sessions.mergeSort sessionLE).getLast? with
  | none => none
  | some latest =>
    some (log.update_file (log.update_file fs (oldFileLoc latest.date)) STORAGE_FILE_LOC)

/-- `TrainingLog.update_from_csv_str` (lines 105-115): load, parse,
append the new session unconditionally, write.  The comparison on lines
110-112 (`new_session == log.sessions[-1]`) only emits a log message and
has no effect on state; it is modelled separately by `dupCheckFires`. -/
def TrainingLog.update_from_csv_str (csv : String) (date : Option PyDate) (today : PyDate)
    (fs : FS) : Except PyErr FS := do
  let log := TrainingLog.load today fs
  let newSession ← Session.from_csv_str csv date today
  let log2 : TrainingLog := ⟨log.sessions ++ [newSession]⟩
  match log2.write fs with
  | some fs2 => return fs2
  | none => .error .indexError

/-- A `Session` object together with its allocation identity (Python
`id`). -/
structure SessionObj where
  oid : Nat
  val : Session

/-- Python `==` on two `Session` objects: `Session` defines no `__eq__`
(and no `__hash__`), so `==` falls back to `object.__eq__`, which is
identity comparison. -/
def sessionPyEqObj (a b : SessionObj) : Bool :=
  a.oid == b.oid

/-- The guard of lines 110-111: with the journal content `ls`, `load`
allocates one fresh `Session` object per line (identities `0..n-1` in
allocation order) and `from_csv_str` then allocates the new session as a
later, distinct object (identity `n`).  The branch body runs when the
log is nonempty and `new_session == log.sessions[-1]` holds. -/
def dupCheckFires (today : PyDate) (ls : List SessionJson) (newSession : Session) : Bool :=
  let objs : List SessionObj := (ls.enum).map (fun p => ⟨p.1, Session.from_json today p.2⟩)
  match objs.getLast? with
  | none => false
  | some last => sessionPyEqObj ⟨ls.length, newSession⟩ last

/-- The constructor invariant: route `index` fields are exactly
`0..N-1` in order. -/
def Session.wfb (s : Session) : Bool :=
  s.routes.map Route.index == List.range s.routes.length

/-- Erase any `idx`-like key from a mapping record; tuple records carry
none to begin with. -/
def RouteRec.stripIdx : RouteRec → RouteRec
  | .dict dd => .dict ⟨none, dd.grade, dd.type, dd.perf⟩
  | r => r

/-- Concrete date used by witnesses: the repository's `_DATE` constant,
2019-07-14. -/
def dExample : PyDate := ⟨2019, 7, 14⟩

/-- Concrete session used by witnesses: the session parsed from the CSV
line `a, b, 3` at `dExample`. -/
def sExample : Session := sessionInit [.tup "a" "b" 3] (some dExample) dExample

/-- The serialized form of `sExample`. -/
def jExample : SessionJson := sExample.to_json

/-- A filesystem whose canonical storage file holds exactly `sExample`. -/
def fsExample : FS := FS.set fsEmpty STORAGE_FILE_LOC [jExample]

/-! ### Lemmas about dates and ordering -/

lemma PyDate.ble_refl (a : PyDate) : a.ble a = true := by
  unfold PyDate.ble
  rw [decide_eq_true_iff]
  omega

lemma PyDate.ble_trans {a b c : PyDate} (hab : a.ble b = true) (hbc : b.ble c = true) :
    a.ble c = true := by
  unfold PyDate.ble at hab hbc ⊢
  rw [decide_eq_true_iff] at hab hbc ⊢
  omega

lemma PyDate.ble_total (a b : PyDate) : (a.ble b || b.ble a) = true := by
  unfold PyDate.ble
  rw [Bool.or_eq_true, decide_eq_true_iff, decide_eq_true_iff]
  omega

lemma sessionLE_refl (a : Session) : sessionLE a a = true :=
  PyDate.ble_refl a.date

lemma sessionLE_trans : ∀ (a b c : Session), sessionLE a b → sessionLE b c → sessionLE a c :=
  fun _ _ _ hab hbc => PyDate.ble_trans hab hbc

lemma sessionLE_total : ∀ (a b : Session), sessionLE a b || sessionLE b a :=
  fun a b => PyDate.ble_total a.date b.date

/-- In a `Pairwise`-sorted list, every element is `≤` the last one. -/
lemma le_getLast_of_pairwise :
    ∀ (l : List Session) (x latest : Session),
      l.Pairwise (fun a b => sessionLE a b = true) → x ∈ l →
      l.getLast? = some latest → sessionLE x latest = true := by
  intro l
  induction l with
  | nil => intro x latest _ hx _; cases hx
  | cons a t ih =>
    intro x latest hp hx hl
    rw [List.pairwise_cons] at hp
    obtain ⟨ha, ht⟩ := hp
    cases t with
    | nil =>
      have hx' : x = a := by simpa using hx
      have hl' : some a = some latest := hl
      have hl'' : a = latest := by injection hl'
      rw [hx', ← hl'']
      exact sessionLE_refl a
    | cons b u =>
      rw [List.getLast?_cons_cons] at hl
      rcases List.mem_cons.mp hx with h | h
      · rw [h]
        exact ha latest (List.mem_of_getLast?_eq_some hl)
      · exact ih x latest ht h hl

/-! ### Lemmas about route construction and serialization -/

lemma create_route_index (i : Nat) (r : RouteRec) : (create_route i r).index = i := by
  cases r <;> rfl

lemma enumFrom_create_index (recs : List RouteRec) :
    ∀ n : Nat,
      (((recs.enumFrom n).map (fun p => create_route p.1 p.2)).map Route.index) =
        List.range' n recs.length := by
  induction recs with
  | nil => intro n; rfl
  | cons r rest ih =>
    intro n
    simp only [List.enumFrom_cons, List.map_cons, List.length_cons, List.range'_succ,
      create_route_index]
    rw [ih (n + 1)]

lemma rebuild_routes :
    ∀ (rs : List Route) (n : Nat), rs.map Route.index = List.range' n rs.length →
    (((rs.map (fun r => RouteRec.dict ⟨some r.index, r.grade, r.type, r.perf⟩)).enumFrom n).map
      (fun p => create_route p.1 p.2)) = rs := by
  intro rs
  induction rs with
  | nil => intro n _; rfl
  | cons r rest ih =>
    intro n h
    rw [List.length_cons, List.range'_succ, List.map_cons] at h
    have h1 : r.index = n := (List.cons.injEq _ _ _ _ ▸ h).1
    have h2 : rest.map Route.index = List.range' (n + 1) rest.length :=
      (List.cons.injEq _ _ _ _ ▸ h).2
    simp only [List.map_cons, List.enumFrom_cons]
    rw [ih (n + 1) h2]
    have hr : create_route n (RouteRec.dict ⟨some r.index, r.grade, r.type, r.perf⟩) = r := by
      rw [← h1]
      cases r
      rfl
    rw [hr]

lemma sessionInit_routes_index (recs : List RouteRec) (d : Option PyDate) (today : PyDate) :
    (sessionInit recs d today).routes.map Route.index = List.range recs.length := by
  unfold sessionInit
  rw [List.range_eq_range']
  exact enumFrom_create_index recs 0

lemma sessionInit_wfb (recs : List RouteRec) (d : Option PyDate) (today : PyDate) :
    (sessionInit recs d today).wfb = true := by
  unfold Session.wfb
  rw [beq_iff_eq, sessionInit_routes_index]
  unfold sessionInit
  simp [List.enum]

/-- Serialization round-trip at the level of a single session: `from_json`
is a left inverse of `to_json` on sessions satisfying the constructor
invariant. -/
lemma from_json_to_json (s : Session) (today : PyDate) (h' : s.wfb = true) :
    Session.from_json today s.to_json = s := by
  obtain ⟨dt, rs⟩ := s
  have hidx : rs.map Route.index = List.range rs.length := by
    unfold Session.wfb at h'
    exact eq_of_beq h'
  unfold Session.from_json Session.to_json sessionInit
  rw [List.map_map]
  have hroutes :
      (((rs.map (fun r => RouteRec.dict ⟨some r.index, r.grade, r.type, r.perf⟩)).enum).map
        (fun p => create_route p.1 p.2)) = rs := by
    rw [List.enum]
    exact rebuild_routes rs 0 (by rw [← List.range_eq_range']; exact hidx)
  simp only [Function.comp_def]
  rw [hroutes]
  rfl

/-! ### Lemmas about `write` and the filesystem -/

/-- Full behavior of a successful `write`: the latest session is a
maximum by date, and both destination files receive the complete
serialized journal. -/
lemma write_spec (log : TrainingLog) (fs : FS) (hne : log.sessions ≠ []) :
    ∃ latest fs2, log.write fs = some fs2 ∧ latest ∈ log.sessions ∧
      (∀ s ∈ log.sessions, sessionLE s latest = true) ∧
      fs2 (oldFileLoc latest.date) = some log.dump_jsons ∧
      fs2 STORAGE_FILE_LOC = some log.dump_jsons := by
  have hms : log.sessions.mergeSort sessionLE ≠ [] := by
    intro h
    apply hne
    have hlen := congrArg List.length h
    rw [List.length_mergeSort] at hlen
    exact List.eq_nil_of_length_eq_zero hlen
  obtain ⟨latest, hlast⟩ : ∃ latest, (log.sessions.mergeSort sessionLE).getLast? = some latest := by
    cases h : (log.sessions.mergeSort sessionLE).getLast? with
    | none => exact absurd (List.getLast?_eq_none_iff.mp h) hms
    | some latest => exact ⟨latest, rfl⟩
  refine ⟨latest,
    log.update_file (log.update_file fs (oldFileLoc latest.date)) STORAGE_FILE_LOC,
    ?_, ?_, ?_, ?_, ?_⟩
  · unfold TrainingLog.write
    rw [hlast]
  · exact List.mem_mergeSort.mp (List.mem_of_getLast?_eq_some hlast)
  · intro s hs
    exact le_getLast_of_pairwise _ s latest
      (List.sorted_mergeSort sessionLE_trans sessionLE_total log.sessions)
      (List.mem_mergeSort.mpr hs) hlast
  · by_cases hp : oldFileLoc latest.date = STORAGE_FILE_LOC <;>
      simp [TrainingLog.update_file, FS.set, hp]
  · simp [TrainingLog.update_file, FS.set]

/-- A successful parse makes `update_from_csv_str` append exactly one
session to the loaded log and hand the result to `write`, which
succeeds since the log is now nonempty. -/
lemma update_spec (csv : String) (d : Option PyDate) (today : PyDate) (fs : FS)
    (s : Session) (hs : Session.from_csv_str csv d today = .ok s) :
    ∃ (latest : Session) (fs2 : FS),
      TrainingLog.update_from_csv_str csv d today fs = .ok fs2 ∧
      fs2 STORAGE_FILE_LOC =
        some (TrainingLog.dump_jsons ⟨(TrainingLog.load today fs).sessions ++ [s]⟩) ∧
      fs2 (oldFileLoc latest.date) =
        some (TrainingLog.dump_jsons ⟨(TrainingLog.load today fs).sessions ++ [s]⟩) := by
  obtain ⟨latest, fs2, hw, _, _, hold, hcur⟩ :=
    write_spec ⟨(TrainingLog.load today fs).sessions ++ [s]⟩ fs
      (List.append_ne_nil_of_right_ne_nil _ (by simp))
  refine ⟨latest, fs2, ?_, hcur, hold⟩
  unfold TrainingLog.update_from_csv_str
  rw [hs]
  simp only [Bind.bind, Except.bind]
  rw [hw]
  rfl

/-! ### Lemmas about CSV parse errors -/

/-- A line with fewer than three comma-separated fields, or whose third
field does not strip-and-parse as an integer, makes `parseCsvLine`
raise. -/
lemma parseCsvLine_error_of_malformed (line : String)
    (h' : (pySplit ',' line).length < 3 ∨
      ∃ p, (pySplit ',' line).get? 2 = some p ∧
        pyInt (pyStrip p) = .error (.valueError (pyStrip p))) :
    ∃ e, parseCsvLine line = .error e := by
  unfold parseCsvLine
  cases hsp : pySplit ',' line with
  | nil => exact ⟨.indexError, rfl⟩
  | cons g t1 =>
    cases t1 with
    | nil => exact ⟨.indexError, rfl⟩
    | cons t t2 =>
      cases t2 with
      | nil => exact ⟨.indexError, rfl⟩
      | cons p rest =>
        rcases h' with hlen | ⟨p2, hp2, herr⟩
        · rw [hsp] at hlen
          simp at hlen
          omega
        · rw [hsp] at hp2
          have hpp : p = p2 := by
            simpa using hp2
          rw [← hpp] at herr
          show ∃ e,
            Except.map (fun n => (pyStrip g, pyStrip t, n)) (pyInt (pyStrip p)) = Except.error e
          rw [herr]
          exact ⟨.valueError (pyStrip p), rfl⟩

/-- The first raising line aborts the whole `from_csv_str` loop. -/
lemma parseLines_error (lines : List String) (line : String) (hmem : line ∈ lines)
    (e : PyErr) (he : parseCsvLine line = .error e) :
    ∃ e2, parseLines lines = .error e2 := by
  induction lines with
  | nil => cases hmem
  | cons x rest ih =>
    rcases List.mem_cons.mp hmem with h | h
    · refine ⟨e, ?_⟩
      unfold parseLines
      rw [← h, he]
      rfl
    · cases hx : parseCsvLine x with
      | error e3 =>
        refine ⟨e3, ?_⟩
        unfold parseLines
        rw [hx]
        rfl
      | ok r =>
        obtain ⟨e2, h2⟩ := ih h
        refine ⟨e2, ?_⟩
        unfold parseLines
        rw [hx]
        simp only [Bind.bind, Except.bind]
        rw [h2]

/-! ### Lemmas about line splitting -/

lemma splitOnChar_ne_nil (c : Char) (l : List Char) : splitOnChar c l ≠ [] := by
  cases l with
  | nil => simp [splitOnChar]
  | cons x xs =>
    unfold splitOnChar
    cases h : splitOnChar c xs with
    | nil => simp
    | cons y ys =>
      by_cases hx : x = c <;> simp [hx]

/-- Appending one separator at the end appends one empty segment. -/
lemma splitOnChar_append_sep (c : Char) (l : List Char) :
    splitOnChar c (l ++ [c]) = splitOnChar c l ++ [[]] := by
  induction l with
  | nil => simp [splitOnChar]
  | cons x xs ih =>
    show splitOnChar c (x :: (xs ++ [c])) = _
    unfold splitOnChar
    rw [ih]
    cases h : splitOnChar c xs with
    | nil => exact absurd h (splitOnChar_ne_nil c xs)
    | cons y ys =>
      by_cases hx : x = c <;> simp [hx]

/-- Appending one trailing newline to a nonempty string that does not
already end in a newline leaves `splitlines` unchanged. -/
lemma pySplitlines_append_newline (s : String) (h1 : s.data ≠ [])
    (h2 : s.data.getLast? ≠ some '\n') :
    pySplitlines (s ++ "\n") = pySplitlines s := by
  unfold pySplitlines pySplitlinesChars
  rw [String.data_append]
  have hd : ("\n" : String).data = ['\n'] := rfl
  rw [hd]
  have hA : s.data ++ ['\n'] ≠ [] := by simp
  have hB : (s.data ++ ['\n']).getLast? = some '\n' := List.getLast?_concat s.data
  rw [if_neg hA, if_pos hB, if_neg h1, if_neg h2]
  rw [splitOnChar_append_sep, List.dropLast_concat]

/-- Stripping an `idx`-like key from a record does not change the route
that `create_route` builds from it. -/
lemma create_route_stripIdx (i : Nat) (r : RouteRec) :
    create_route i r.stripIdx = create_route i r := by
  cases r <;> rfl

lemma enumFrom_map_stripIdx (recs : List RouteRec) :
    ∀ n : Nat,
      (((recs.map RouteRec.stripIdx).enumFrom n).map (fun p => create_route p.1 p.2)) =
        ((recs.enumFrom n).map (fun p => create_route p.1 p.2)) := by
  induction recs with
  | nil => intro n; rfl
  | cons r rest ih =>
    intro n
    simp only [List.map_cons, List.enumFrom_cons]
    rw [ih (n + 1), create_route_stripIdx]

/-! ### Claim theorems -/

/-- Claim C1 (Journal round-trip): for every ordered sequence `L` of
Sessions satisfying the constructor invariant, writing `dump_jsons()` of
a `TrainingLog` over `L` to the canonical storage file and then calling
`TrainingLog.load()` reconstructs a log whose sessions equal `L` in the
same order (one Session-JSON object per line, file order preserved). -/
theorem journal_roundtrip (L : List Session) (fs : FS) (today : PyDate)
    (hL : ∀ s ∈ L, Session.wfb s = true) :
    (TrainingLog.load today (TrainingLog.update_file ⟨L⟩ fs STORAGE_FILE_LOC)).sessions = L := by
  unfold TrainingLog.load TrainingLog.update_file FS.set TrainingLog.dump_jsons
  rw [if_pos rfl]
  show ((L.map Session.to_json).map (Session.from_json today)) = L
  rw [List.map_map]
  have hid : ∀ s ∈ L, (Session.from_json today ∘ Session.to_json) s = id s := fun s hs =>
    from_json_to_json s today (hL s hs)
  rw [List.map_congr_left hid, List.map_id]

/-- Witness for C1 at a concrete one-session journal. -/
theorem journal_roundtrip_witness :
    (∀ s ∈ [sExample], Session.wfb s = true) ∧
    (TrainingLog.load dExample
      (TrainingLog.update_file ⟨[sExample]⟩ fsEmpty STORAGE_FILE_LOC)).sessions = [sExample] :=
  ⟨by decide, journal_roundtrip [sExample] fsEmpty dExample (by decide)⟩

/-- Claim C2 (Session round-trip): for every Session `s` (satisfying the
constructor invariant, which `Session.__init__` always establishes),
`Session.from_json(s.to_json())` equals `s`: same date and same ordered
route list, each route with the same `idx`, `grade`, `type`, `perf`. -/
theorem session_roundtrip (s : Session) (today : PyDate) (h' : Session.wfb s = true) :
    Session.from_json today s.to_json = s :=
  from_json_to_json s today h'

/-- Witness for C2 at a concrete session. -/
theorem session_roundtrip_witness :
    Session.wfb sExample = true ∧
    Session.from_json dExample sExample.to_json = sExample :=
  ⟨by decide, session_roundtrip sExample dExample (by decide)⟩

/-- Claim C3 evaluated at the failing input: the journal's last stored
session deserializes to a value exactly equal to the newly parsed
session (same date, same ordered route list), yet the duplicate check of
`update_from_csv_str` — Python `==` on two distinct `Session` objects,
which is identity since `Session` defines no `__eq__` — does not fire. -/
theorem dup_check_never_fires_on_equal_content :
    Session.from_json dExample jExample = sExample ∧
    dupCheckFires dExample [jExample] sExample = false := by decide

/-- Claim C4 (Duplicate appends are non-blocking): for every filesystem
whose canonical file holds a nonempty journal whose last line has the
same serialized content as the newly parsed session,
`update_from_csv_str` still appends the new session, and the persisted
journal contains both copies (at the two adjacent final positions). -/
theorem dup_append_nonblocking (fs : FS) (ls : List SessionJson) (csv : String)
    (d : Option PyDate) (today : PyDate) (s : Session) (j : SessionJson)
    (hfs : fs STORAGE_FILE_LOC = some ls)
    (hlast : ls.getLast? = some j)
    (hparse : Session.from_csv_str csv d today = .ok s)
    (hdup : (Session.from_json today j).to_json = s.to_json) :
    ∃ fs2, TrainingLog.update_from_csv_str csv d today fs = .ok fs2 ∧
      fs2 STORAGE_FILE_LOC =
        some ((ls.map (fun x => (Session.from_json today x).to_json)) ++ [s.to_json]) ∧
      ((ls.map (fun x => (Session.from_json today x).to_json)) ++ [s.to_json]).get?
        (ls.length - 1) = some s.to_json ∧
      ((ls.map (fun x => (Session.from_json today x).to_json)) ++ [s.to_json]).get?
        ls.length = some s.to_json ∧
      ls.length - 1 < ls.length := by
  have hne : ls ≠ [] := by
    intro h
    rw [h] at hlast
    cases hlast
  have hpos : 0 < ls.length := List.length_pos.mpr hne
  obtain ⟨latest, fs2, hu, hcur, hold⟩ := update_spec csv d today fs s hparse
  have hload : (TrainingLog.load today fs).sessions = ls.map (Session.from_json today) := by
    unfold TrainingLog.load
    rw [hfs]
  have hdump : TrainingLog.dump_jsons ⟨(TrainingLog.load today fs).sessions ++ [s]⟩ =
      (ls.map (fun x => (Session.from_json today x).to_json)) ++ [s.to_json] := by
    show ((TrainingLog.load today fs).sessions ++ [s]).map Session.to_json = _
    rw [hload, List.map_append, List.map_map]
    rfl
  refine ⟨fs2, hu, by rw [hcur, hdump], ?_, ?_, by omega⟩
  · rw [List.get?_append (by rw [List.length_map]; omega), List.get?_map,
      ← List.getLast?_eq_get?, hlast]
    simp [hdup]
  · have hc := List.get?_concat_length
      (ls.map (fun x => (Session.from_json today x).to_json)) s.to_json
    rw [List.length_map] at hc
    exact hc

/-- Witness for C4: a one-session journal whose stored session has the
same content as the newly parsed one. -/
theorem dup_append_nonblocking_witness :
    ∃ fs2, TrainingLog.update_from_csv_str "a, b, 3" (some dExample) dExample fsExample =
        .ok fs2 ∧
      fs2 STORAGE_FILE_LOC =
        some (([jExample].map (fun x => (Session.from_json dExample x).to_json)) ++
          [sExample.to_json]) ∧
      (([jExample].map (fun x => (Session.from_json dExample x).to_json)) ++
        [sExample.to_json]).get? ([jExample].length - 1) = some sExample.to_json ∧
      (([jExample].map (fun x => (Session.from_json dExample x).to_json)) ++
        [sExample.to_json]).get? [jExample].length = some sExample.to_json ∧
      [jExample].length - 1 < [jExample].length :=
  dup_append_nonblocking fsExample [jExample] "a, b, 3" (some dExample) dExample sExample
    jExample (by decide) (by decide) (by decide) (by decide)

/-- Claim C5: `write()` selects a maximum-by-date session among all
sessions (not the last in append order), writes the full serialized
journal to the dated archive path formatted from that date, and writes
the same complete content to the canonical path, so both files hold
identical content. -/
theorem write_snapshot_dual (log : TrainingLog) (fs : FS) (hne : log.sessions ≠ []) :
    ∃ (latest : Session) (fs2 : FS), log.write fs = some fs2 ∧ latest ∈ log.sessions ∧
      (∀ s ∈ log.sessions, PyDate.ble s.date latest.date = true) ∧
      fs2 (oldFileLoc latest.date) = some log.dump_jsons ∧
      fs2 STORAGE_FILE_LOC = some log.dump_jsons :=
  write_spec log fs hne

/-- Witness for C5 at a concrete one-session log. -/
theorem write_snapshot_dual_witness :
    ∃ (latest : Session) (fs2 : FS),
      TrainingLog.write ⟨[sExample]⟩ fsEmpty = some fs2 ∧ latest ∈ [sExample] ∧
      (∀ s ∈ [sExample], PyDate.ble s.date latest.date = true) ∧
      fs2 (oldFileLoc latest.date) = some (TrainingLog.dump_jsons ⟨[sExample]⟩) ∧
      fs2 STORAGE_FILE_LOC = some (TrainingLog.dump_jsons ⟨[sExample]⟩) :=
  write_snapshot_dual ⟨[sExample]⟩ fsEmpty (by decide)

/-- Counterexample to C6 as stated: a line with four comma-separated
fields (wrong field count) does not fail — `from_csv_str` succeeds and
silently ignores the extra field. -/
theorem csv_extra_fields_accepted :
    Session.from_csv_str "a, b, 3, 4" (some dExample) dExample =
      .ok (Session.mk dExample [⟨0, "a", "b", 3⟩]) := by decide

/-- Claim C6 as amended: each line must split on commas into at least
three fields with the third trimmed field parsing as an integer; for
every input containing a line with fewer than three fields or a
non-integer third field, the call fails (fields beyond the third are
ignored, and the raised error names the offending literal, not the
line). -/
theorem csv_malformed_line_fails (csv : String) (d : Option PyDate) (today : PyDate)
    (h' : ∃ line ∈ pySplitlines csv,
      (pySplit ',' line).length < 3 ∨
      ∃ p, (pySplit ',' line).get? 2 = some p ∧
        pyInt (pyStrip p) = .error (.valueError (pyStrip p))) :
    ∃ e, Session.from_csv_str csv d today = .error e := by
  obtain ⟨line, hmem, hbad⟩ := h'
  obtain ⟨e, he⟩ := parseCsvLine_error_of_malformed line hbad
  obtain ⟨e2, h2⟩ := parseLines_error (pySplitlines csv) line hmem e he
  refine ⟨e2, ?_⟩
  unfold Session.from_csv_str
  rw [h2]
  rfl

/-- Witness for amended C6: a two-field line fails. -/
theorem csv_malformed_line_fails_witness :
    ∃ e, Session.from_csv_str "5.10a, lead" (some dExample) dExample = .error e :=
  csv_malformed_line_fails "5.10a, lead" (some dExample) dExample
    ⟨"5.10a, lead", by decide, Or.inl (by decide)⟩

/-- Claim C7 (Positional indexing): constructing a Session from any
sequence of `N` route records yields routes whose index fields are
exactly `0..N-1` in input order, regardless of record shape and of any
`idx`-like value present in a mapping record (the stored `idx` is never
used). -/
theorem positional_indexing (recs : List RouteRec) (d : Option PyDate) (today : PyDate) :
    (sessionInit recs d today).routes.map Route.index = List.range recs.length ∧
    sessionInit (recs.map RouteRec.stripIdx) d today = sessionInit recs d today := by
  refine ⟨sessionInit_routes_index recs d today, ?_⟩
  unfold sessionInit
  simp only [List.enum]
  exact congrArg (Session.mk (d.getD today)) (enumFrom_map_stripIdx recs 0)

/-- Claim C8 (First-run load): when the canonical storage file does not
exist, `TrainingLog.load()` returns an empty log and does not raise. -/
theorem load_missing_file (today : PyDate) (fs : FS) (h' : fs STORAGE_FILE_LOC = none) :
    TrainingLog.load today fs = ⟨[]⟩ := by
  unfold TrainingLog.load
  rw [h']

/-- Witness for C8 on the empty filesystem. -/
theorem load_missing_file_witness :
    fsEmpty STORAGE_FILE_LOC = none ∧ TrainingLog.load dExample fsEmpty = ⟨[]⟩ :=
  ⟨rfl, load_missing_file dExample fsEmpty rfl⟩

/-- Counterexample to C9 as stated: on the empty input, `from_csv_str`
yields an empty session, but appending a trailing newline makes it
raise (the newline creates one empty line, whose comma-split has one
field). -/
theorem trailing_newline_counterexample :
    Session.from_csv_str ("" ++ "\n") (some dExample) dExample = .error .indexError ∧
    Session.from_csv_str "" (some dExample) dExample = .ok (Session.mk dExample []) := by
  decide

/-- Claim C9 as amended: for every nonempty CSV input that does not
already end in a newline, `from_csv_str` applied to the input with a
trailing newline appended produces the same result (same session, no
spurious empty record) as without it. -/
theorem trailing_newline_same_session (s : String) (d : Option PyDate) (today : PyDate)
    (h1 : s.data ≠ []) (h2 : s.data.getLast? ≠ some '\n') :
    Session.from_csv_str (s ++ "\n") d today = Session.from_csv_str s d today := by
  unfold Session.from_csv_str
  rw [pySplitlines_append_newline s h1 h2]

/-- Witness for amended C9 at a concrete line. -/
theorem trailing_newline_same_session_witness :
    ("a, b, 1" : String).data ≠ [] ∧
    ("a, b, 1" : String).data.getLast? ≠ some '\n' ∧
    Session.from_csv_str ("a, b, 1" ++ "\n") (some dExample) dExample =
      Session.from_csv_str "a, b, 1" (some dExample) dExample :=
  ⟨by decide, by decide,
    trailing_newline_same_session "a, b, 1" (some dExample) dExample (by decide) (by decide)⟩

/-- Claim C10: `write()` on a log with an empty session sequence fails
(indexing the last element of the empty sorted list), and this error is
unreachable from `update_from_csv_str`, which always appends exactly one
session before calling `write()`, so every `write()` it performs
succeeds. -/
theorem write_empty_fails_but_unreachable :
    (∀ fs : FS, TrainingLog.write ⟨[]⟩ fs = none) ∧
    (∀ (csv : String) (d : Option PyDate) (today : PyDate) (fs : FS) (s : Session),
      Session.from_csv_str csv d today = .ok s →
      ∃ fs2, TrainingLog.update_from_csv_str csv d today fs = .ok fs2) := by
  constructor
  · intro fs
    unfold TrainingLog.write
    rw [show (⟨[]⟩ : TrainingLog).sessions = [] from rfl, List.mergeSort_nil]
    rfl
  · intro csv d today fs s hs
    obtain ⟨latest, fs2, hu, _, _⟩ := update_spec csv d today fs s hs
    exact ⟨fs2, hu⟩

/-- Witness for C10: a successfully parsed CSV makes the whole
load-append-write cycle succeed starting from the empty filesystem. -/
theorem write_empty_fails_but_unreachable_witness :
    ∃ fs2, TrainingLog.update_from_csv_str "a, b, 3" (some dExample) dExample fsEmpty =
      .ok fs2 :=
  write_empty_fails_but_unreachable.2 "a, b, 3" (some dExample) dExample fsEmpty sExample
    (by decide)

end SessionLog
